import Mathlib

/-!
Verification of the two automation scripts in this repository:
Pipeline A (`PowerBI_CriblSearch.py`, search-to-table) and
Pipeline B (`ActiveDirectory/main.py`, directory-to-lookup-sync).

Each definition below is a shallow embedding of a function or code block of
the source, translated statement by statement.  External library calls
(HTTP, LDAP, `json.loads`, pandas) are modelled by their inputs/outputs:
an HTTP response is an `Except`/`Option` value, `json.loads` is an oracle
`String → Json`, a pandas cell is `Option Json` (`none` = NA).
-/

/-- A JSON value, as produced by Python's `json.loads`.  Numbers are
modelled as integers (only zero-ness matters for the code's truthiness
checks). -/
inductive Json where
  | null : Json
  | bool : Bool → Json
  | num : Int → Json
  | str : String → Json
  | arr : List Json → Json
  | obj : List (String × Json) → Json

/-- Python truthiness (`bool(v)`) of a parsed JSON value: `None`, `False`,
`0`, `""`, `[]` and the empty dict are falsy, everything else truthy. -/
def Json.truthy : Json → Bool
  | Json.null => false
  | Json.bool b => b
  | Json.num n => n != 0
  | Json.str s => s != ""
  | Json.arr xs => !xs.isEmpty
  | Json.obj kvs => !kvs.isEmpty

/-- Whether a JSON value is the empty object (the `{ }` of NDJSON lines). -/
def Json.isEmptyObj : Json → Bool
  | Json.obj [] => true
  | _ => false

/-- Python dict lookup (`d.get(k)`, `d[k]`) on the key/value list of a JSON
object; `none` models Python's `None` / absent key. -/
def jlookup (k : String) : List (String × Json) → Option Json
  | [] => none
  | (k0, v) :: rest => if k0 = k then some v else jlookup k rest

/- =============== Python string primitives used by both scripts ========== -/

/-- Python `c in s` membership test for a single character. -/
def pyContains (s : String) (c : Char) : Bool :=
  s.data.contains c

/-- Python `s.strip()`: remove leading and trailing whitespace. -/
def pyTrim (s : String) : String :=
  String.mk (((s.data.dropWhile Char.isWhitespace).reverse.dropWhile
    Char.isWhitespace).reverse)

/-- Python `s.split(c, 1)` for a single-character separator occurring in
`s`: the part before the first occurrence and everything after it. -/
def splitFirst (s : String) (c : Char) : String × String :=
  let pre := s.data.takeWhile (fun a => a != c)
  (String.mk pre, String.mk (s.data.drop (pre.length + 1)))

/- ================= Pipeline A: PowerBI_CriblSearch.py =================== -/

/-- Python `s.split(c)` for a single-character separator (used for the
newline split of the raw results text). -/
def splitCharAux (c : Char) : List Char → List Char → List String
  | [], acc => [String.mk acc.reverse]
  | a :: rest, acc =>
    if a == c then String.mk acc.reverse :: splitCharAux c rest []
    else splitCharAux c rest (a :: acc)

/-- Python `s.split(c)` on the whole string. -/
def pySplitChar (s : String) (c : Char) : List String :=
  splitCharAux c s.data []

/-- The NDJSON parsing loop (PowerBI_CriblSearch.py lines 100-106), over
the list of lines of the results text.  `loads` is the `json.loads`
oracle.  A line is processed only if `line.strip()` is truthy (nonempty),
and the parsed value is appended only if it is truthy. -/
def parseResults (loads : String → Json) : List String → List Json
  | [] => []
  | l :: rest =>
    if pyTrim l = "" then parseResults loads rest
    else if (loads l).truthy then loads l :: parseResults loads rest
    else parseResults loads rest

/-- The full result parsing: `results_response.text.strip().split('\n')`
fed through the NDJSON loop. -/
def parseResultsText (loads : String → Json) (text : String) : List Json :=
  parseResults loads (pySplitChar (pyTrim text) '\n')

/-- The loop keeps, in order, exactly the parses of the non-blank lines
whose parsed value is truthy. -/
theorem parseResults_eq (loads : String → Json) (lines : List String) :
    parseResults loads lines =
      ((lines.filter (fun l => !(pyTrim l == ""))).map loads).filter Json.truthy := by
  induction lines with
  | nil => rfl
  | cons l rest ih =>
    by_cases hb : pyTrim l = ""
    · simp [parseResults, hb, ih]
    · by_cases ht : (loads l).truthy
      · simp [parseResults, hb, ht, ih]
      · simp [parseResults, hb, ht, ih]

/-- A truthy JSON value is not the empty object. -/
theorem truthy_not_emptyObj (j : Json) (h : j.truthy = true) :
    j.isEmptyObj = false := by
  cases j with
  | obj kvs => cases kvs <;> simp_all [Json.truthy, Json.isEmptyObj]
  | _ => rfl

/-- Claim C9 (implicit): the loop discards every line whose parsed JSON
value is Python-falsy — not only the empty object, but also `null`,
`false`, `0`, the empty string and the empty array: the output is the
truthiness-filter of the parses of the non-blank lines, so a falsy value
never reaches the output table. -/
theorem ndjson_falsy_filter (loads : String → Json) (lines : List String) :
    parseResults loads lines =
      ((lines.filter (fun l => !(pyTrim l == ""))).map loads).filter Json.truthy ∧
    Json.truthy Json.null = false ∧
    Json.truthy (Json.bool false) = false ∧
    Json.truthy (Json.num 0) = false ∧
    Json.truthy (Json.str "") = false ∧
    Json.truthy (Json.arr []) = false ∧
    Json.truthy (Json.obj []) = false :=
  ⟨parseResults_eq loads lines, rfl, rfl, rfl, rfl, rfl, rfl⟩

/-- Claim C4: for any mix of blank lines, lines parsing to the empty JSON
object, and lines parsing to valid non-empty (truthy) values, the result
list is exactly the parses of the valid non-empty lines, in their
original order; blank lines and empty-object lines are excluded. -/
theorem ndjson_mix_spec (loads : String → Json) (lines : List String)
    (h : ∀ l ∈ lines,
      pyTrim l = "" ∨ loads l = Json.obj [] ∨ (loads l).truthy = true) :
    parseResults loads lines =
      (lines.filter
        (fun l => (!(pyTrim l == "")) && !(loads l).isEmptyObj)).map loads := by
  induction lines with
  | nil => rfl
  | cons l rest ih =>
    have hrest := ih (fun x hx => h x (List.mem_cons_of_mem _ hx))
    rcases h l (List.mem_cons_self _ _) with hb | he | ht
    · simp [parseResults, hb, hrest]
    · simp [parseResults, he, Json.truthy, Json.isEmptyObj, hrest]
    · have hne := truthy_not_emptyObj (loads l) ht
      by_cases hb : pyTrim l = ""
      · simp [parseResults, hb, hrest]
      · simp [parseResults, hb, ht, hne, hrest]

/-- The table-row filter `df_temp.dropna(how='all')`
(PowerBI_CriblSearch.py line 115).  A row is a list of cells across the
table's columns; `none` models a pandas NA cell (missing key or null
value).  `dropna(how='all')` drops a row exactly when every cell is NA. -/
def dropnaAll (rows : List (List (Option Json))) : List (List (Option Json)) :=
  rows.filter (fun r => r.any (fun c => c.isSome))

/-- A field that is "empty/missing" in the spec's informal sense: absent
(NA) or the empty string. -/
def fieldEmpty : Option Json → Bool
  | none => true
  | some (Json.str s) => s == ""
  | some _ => false

/-- Claim C5, counterexample: a row whose every field is empty (here: a
single cell holding the empty string) is NOT dropped by
`dropna(how='all')` — pandas drops only all-NA rows, and an empty string
is not NA.  The claim's "every field empty/missing is dropped" fails. -/
theorem dropna_empty_string_counterexample :
    ([some (Json.str "")] : List (Option Json)).all fieldEmpty = true ∧
    dropnaAll [[some (Json.str "")]] = [[some (Json.str "")]] :=
  ⟨rfl, rfl⟩

/-- Claim C5, amended: a row whose every field is missing (NA) is dropped
from the output, and a row with at least one present field — even one
holding an empty string — is kept. -/
theorem dropna_all_missing_amended (rows : List (List (Option Json)))
    (row : List (Option Json)) (hmem : row ∈ rows) :
    ((∀ c ∈ row, c = none) → row ∉ dropnaAll rows) ∧
    ((∃ c ∈ row, c.isSome) → row ∈ dropnaAll rows) := by
  constructor
  · intro hall hcontra
    rcases List.mem_filter.mp hcontra with ⟨-, hany⟩
    rcases List.any_eq_true.mp hany with ⟨c, hc, hsome⟩
    rw [hall c hc] at hsome
    simp at hsome
  · intro ⟨c, hc, hsome⟩
    exact List.mem_filter.mpr ⟨hmem, List.any_eq_true.mpr ⟨c, hc, hsome⟩⟩

/-- A concrete `json.loads` oracle for evaluating the NDJSON loop: one
line parses to a non-empty object, every other line to the empty object. -/
def loadsW : String → Json :=
  fun l => if l = "objline" then Json.obj [("a", Json.num 1)] else Json.obj []

theorem ndjson_mix_witness :
    parseResults loadsW ["objline", "   ", "emptyline"] =
      [Json.obj [("a", Json.num 1)]] := by
  have h : ∀ l ∈ (["objline", "   ", "emptyline"] : List String),
      pyTrim l = "" ∨ loadsW l = Json.obj [] ∨ (loadsW l).truthy = true := by
    intro l hl
    simp only [List.mem_cons, List.not_mem_nil, or_false] at hl
    rcases hl with rfl | rfl | rfl
    · right; right; rfl
    · left; rfl
    · right; left; rfl
  exact (ndjson_mix_spec loadsW _ h).trans rfl

theorem dropna_witness :
    ([some (Json.str "")] : List (Option Json)) ∈
      dropnaAll [[none], [some (Json.str "")]] ∧
    ([none] : List (Option Json)) ∉ dropnaAll [[none], [some (Json.str "")]] := by
  constructor
  · exact (dropna_all_missing_amended _ _
      (List.mem_cons_of_mem _ (List.mem_cons_self _ _))).2
      ⟨some (Json.str ""), List.mem_cons_self _ _, rfl⟩
  · exact (dropna_all_missing_amended _ _ (List.mem_cons_self _ _)).1
      (fun c hc => List.mem_singleton.mp hc)

/-- Outcome of the job-status poll loop (PowerBI_CriblSearch.py lines
78-92): `success` models `break` on a done/completed status, `failure`
models `raise Exception("Search job failed")`, `exhausted` models the
`for` loop running out of attempts without a terminal status. -/
inductive PollOutcome where
  | success : PollOutcome
  | failure : PollOutcome
  | exhausted : PollOutcome
deriving DecidableEq

/-- Observable trace of one run of the poll loop: its outcome, how many
status checks were issued, and how many `time.sleep(2)` calls ran. -/
structure PollResult where
  outcome : PollOutcome
  checks : Nat
  sleeps : Nat
deriving DecidableEq

/-- `job_status in ["done", "completed"]`. -/
def isDoneStatus (s : String) : Bool :=
  s == "done" || s == "completed"

/-- A status on which the loop stops (by `break` or by `raise`). -/
def isTerminalStatus (s : String) : Bool :=
  isDoneStatus s || s == "failed"

/-- One run of the loop body from attempt `i` with the given fuel:
check the status of attempt `i`; `break` on done/completed; raise on
`failed`; otherwise `time.sleep(2)` and continue with the next attempt. -/
def pollFrom (status : Nat → String) : Nat → Nat → PollResult
  | _, 0 => ⟨PollOutcome.exhausted, 0, 0⟩
  | i, fuel + 1 =>
    if isDoneStatus (status i) then ⟨PollOutcome.success, 1, 0⟩
    else if status i == "failed" then ⟨PollOutcome.failure, 1, 0⟩
    else
      let r := pollFrom status (i + 1) fuel
      ⟨r.outcome, r.checks + 1, r.sleeps + 1⟩

/-- `max_attempts = 60` (line 78). -/
def maxAttempts : Nat := 60

/-- `time.sleep(2)`: the fixed wait, in time units, between checks. -/
def sleepSeconds : Nat := 2

/-- The whole poll loop: `for attempt in range(max_attempts)`. -/
def pollJob (status : Nat → String) : PollResult :=
  pollFrom status 0 maxAttempts

/-- Total waiting time of a run of the loop. -/
def totalSleep (status : Nat → String) : Nat :=
  sleepSeconds * (pollJob status).sleeps

/-- What happens after the loop: the raised exception aborts the run;
in every other case (success or exhausted attempts) the script falls
through to the results fetch (lines 94-98). -/
def afterPoll (status : Nat → String) : Except String Unit :=
  if (pollJob status).outcome = PollOutcome.failure then
    Except.error "Search job failed"
  else Except.ok ()

theorem pollFrom_checks_le (status : Nat → String) :
    ∀ fuel i, (pollFrom status i fuel).checks ≤ fuel := by
  intro fuel
  induction fuel with
  | zero => intro i; simp [pollFrom]
  | succ f ih =>
    intro i
    by_cases hd : isDoneStatus (status i) = true
    · simp [pollFrom, hd]
    · by_cases hf : (status i == "failed") = true
      · simp [pollFrom, hd, hf]
      · simp only [pollFrom, hd, hf, if_false, Bool.false_eq_true]
        simpa using ih (i + 1)

theorem pollFrom_success_iff (status : Nat → String) :
    ∀ fuel i, ((pollFrom status i fuel).outcome = PollOutcome.success ↔
      ∃ k, k < fuel ∧ isDoneStatus (status (i + k)) = true ∧
        ∀ j, j < k → isTerminalStatus (status (i + j)) = false) := by
  intro fuel
  induction fuel with
  | zero => intro i; simp [pollFrom]
  | succ f ih =>
    intro i
    by_cases hd : isDoneStatus (status i) = true
    · simp only [pollFrom, hd, if_true]
      constructor
      · intro _
        exact ⟨0, Nat.succ_pos f, by simpa using hd,
          fun j hj => (Nat.not_lt_zero j hj).elim⟩
      · intro _
        trivial
    · have hd0 : isDoneStatus (status i) = false := Bool.eq_false_iff.mpr hd
      by_cases hf : (status i == "failed") = true
      · have hterm : isTerminalStatus (status i) = true := by
          simp [isTerminalStatus, hf]
        simp only [pollFrom, hd0, hf, Bool.false_eq_true, if_false, if_true]
        constructor
        · intro h
          exact absurd h (by decide)
        · rintro ⟨k, hk, hP, hQ⟩
          exfalso
          cases k with
          | zero =>
            rw [Nat.add_zero] at hP
            rw [hP] at hd0
            exact Bool.true_eq_false.mp hd0
          | succ k0 =>
            have := hQ 0 (Nat.succ_pos k0)
            rw [Nat.add_zero] at this
            rw [hterm] at this
            exact Bool.true_eq_false.mp this
      · have hf0 : (status i == "failed") = false := Bool.eq_false_iff.mpr hf
        have hterm : isTerminalStatus (status i) = false := by
          simp [isTerminalStatus, hd0, hf0]
        simp only [pollFrom, hd0, hf0, Bool.false_eq_true, if_false]
        rw [ih (i + 1)]
        constructor
        · rintro ⟨k, hk, hP, hQ⟩
          refine ⟨k + 1, by omega, ?_, ?_⟩
          · rw [show i + (k + 1) = i + 1 + k from by omega]
            exact hP
          · intro j hj
            cases j with
            | zero => rw [Nat.add_zero]; exact hterm
            | succ j0 =>
              rw [show i + (j0 + 1) = i + 1 + j0 from by omega]
              exact hQ j0 (by omega)
        · rintro ⟨k, hk, hP, hQ⟩
          cases k with
          | zero =>
            exfalso
            rw [Nat.add_zero] at hP
            rw [hP] at hd0
            exact Bool.true_eq_false.mp hd0
          | succ k0 =>
            refine ⟨k0, by omega, ?_, ?_⟩
            · rw [show i + 1 + k0 = i + (k0 + 1) from by omega]
              exact hP
            · intro j hj
              rw [show i + 1 + j = i + (j + 1) from by omega]
              exact hQ (j + 1) (by omega)

theorem pollFrom_failure_iff (status : Nat → String) :
    ∀ fuel i, ((pollFrom status i fuel).outcome = PollOutcome.failure ↔
      ∃ k, k < fuel ∧ status (i + k) = "failed" ∧
        ∀ j, j < k → isTerminalStatus (status (i + j)) = false) := by
  intro fuel
  induction fuel with
  | zero => intro i; simp [pollFrom]
  | succ f ih =>
    intro i
    by_cases hd : isDoneStatus (status i) = true
    · have hterm : isTerminalStatus (status i) = true := by
        simp [isTerminalStatus, hd]
      have hnf : status i ≠ "failed" := by
        intro h
        rw [h] at hd
        exact Bool.true_eq_false.mp (by simpa [isDoneStatus] using hd)
      simp only [pollFrom, hd, if_true]
      constructor
      · intro h
        exact absurd h (by decide)
      · rintro ⟨k, hk, hP, hQ⟩
        exfalso
        cases k with
        | zero =>
          rw [Nat.add_zero] at hP
          exact hnf hP
        | succ k0 =>
          have := hQ 0 (Nat.succ_pos k0)
          rw [Nat.add_zero] at this
          rw [hterm] at this
          exact Bool.true_eq_false.mp this
    · have hd0 : isDoneStatus (status i) = false := Bool.eq_false_iff.mpr hd
      by_cases hf : (status i == "failed") = true
      · simp only [pollFrom, hd0, hf, Bool.false_eq_true, if_false, if_true]
        constructor
        · intro _
          exact ⟨0, Nat.succ_pos f, by simpa using hf,
            fun j hj => (Nat.not_lt_zero j hj).elim⟩
        · intro _
          trivial
      · have hf0 : (status i == "failed") = false := Bool.eq_false_iff.mpr hf
        have hterm : isTerminalStatus (status i) = false := by
          simp [isTerminalStatus, hd0, hf0]
        have hnf : ¬ status i = "failed" := by
          intro h
          rw [h] at hf0
          simp at hf0
        simp only [pollFrom, hd0, hf0, Bool.false_eq_true, if_false]
        rw [ih (i + 1)]
        constructor
        · rintro ⟨k, hk, hP, hQ⟩
          refine ⟨k + 1, by omega, ?_, ?_⟩
          · rw [show i + (k + 1) = i + 1 + k from by omega]
            exact hP
          · intro j hj
            cases j with
            | zero => rw [Nat.add_zero]; exact hterm
            | succ j0 =>
              rw [show i + (j0 + 1) = i + 1 + j0 from by omega]
              exact hQ j0 (by omega)
        · rintro ⟨k, hk, hP, hQ⟩
          cases k with
          | zero =>
            exfalso
            rw [Nat.add_zero] at hP
            exact hnf hP
          | succ k0 =>
            refine ⟨k0, by omega, ?_, ?_⟩
            · rw [show i + 1 + k0 = i + (k0 + 1) from by omega]
              exact hP
            · intro j hj
              rw [show i + 1 + j = i + (j + 1) from by omega]
              exact hQ (j + 1) (by omega)

theorem pollFrom_exhausted_iff (status : Nat → String) :
    ∀ fuel i, ((pollFrom status i fuel).outcome = PollOutcome.exhausted ↔
      ∀ k, k < fuel → isTerminalStatus (status (i + k)) = false) := by
  intro fuel
  induction fuel with
  | zero => intro i; simp [pollFrom]
  | succ f ih =>
    intro i
    by_cases hd : isDoneStatus (status i) = true
    · have hterm : isTerminalStatus (status i) = true := by
        simp [isTerminalStatus, hd]
      simp only [pollFrom, hd, if_true]
      constructor
      · intro h
        exact absurd h (by decide)
      · intro h
        exfalso
        have := h 0 (Nat.succ_pos f)
        rw [Nat.add_zero, hterm] at this
        exact Bool.true_eq_false.mp this
    · have hd0 : isDoneStatus (status i) = false := Bool.eq_false_iff.mpr hd
      by_cases hf : (status i == "failed") = true
      · have hterm : isTerminalStatus (status i) = true := by
          simp [isTerminalStatus, hf]
        simp only [pollFrom, hd0, hf, Bool.false_eq_true, if_false, if_true]
        constructor
        · intro h
          exact absurd h (by decide)
        · intro h
          exfalso
          have := h 0 (Nat.succ_pos f)
          rw [Nat.add_zero, hterm] at this
          exact Bool.true_eq_false.mp this
      · have hf0 : (status i == "failed") = false := Bool.eq_false_iff.mpr hf
        have hterm : isTerminalStatus (status i) = false := by
          simp [isTerminalStatus, hd0, hf0]
        simp only [pollFrom, hd0, hf0, Bool.false_eq_true, if_false]
        rw [ih (i + 1)]
        constructor
        · intro h k hk
          cases k with
          | zero => rw [Nat.add_zero]; exact hterm
          | succ k0 =>
            rw [show i + (k0 + 1) = i + 1 + k0 from by omega]
            exact h k0 (by omega)
        · intro h k hk
          rw [show i + 1 + k = i + (k + 1) from by omega]
          exact h (k + 1) (by omega)

theorem pollFrom_exhausted_checks (status : Nat → String) :
    ∀ fuel i, (pollFrom status i fuel).outcome = PollOutcome.exhausted →
      (pollFrom status i fuel).checks = fuel ∧
      (pollFrom status i fuel).sleeps = fuel := by
  intro fuel
  induction fuel with
  | zero => intro i _; exact ⟨rfl, rfl⟩
  | succ f ih =>
    intro i h
    by_cases hd : isDoneStatus (status i) = true
    · rw [show pollFrom status i (f + 1) = ⟨PollOutcome.success, 1, 0⟩ from by
        simp [pollFrom, hd]] at h ⊢
      exact absurd h (by decide)
    · have hd0 : isDoneStatus (status i) = false := Bool.eq_false_iff.mpr hd
      by_cases hf : (status i == "failed") = true
      · rw [show pollFrom status i (f + 1) = ⟨PollOutcome.failure, 1, 0⟩ from by
          simp [pollFrom, hd0, hf]] at h ⊢
        exact absurd h (by decide)
      · have hf0 : (status i == "failed") = false := Bool.eq_false_iff.mpr hf
        have hstep : pollFrom status i (f + 1) =
            ⟨(pollFrom status (i + 1) f).outcome,
             (pollFrom status (i + 1) f).checks + 1,
             (pollFrom status (i + 1) f).sleeps + 1⟩ := by
          simp [pollFrom, hd0, hf0]
        rw [hstep] at h ⊢
        have := ih (i + 1) h
        simp only []
        omega

theorem pollFrom_terminal_sleeps (status : Nat → String) :
    ∀ fuel i, (pollFrom status i fuel).outcome ≠ PollOutcome.exhausted →
      (pollFrom status i fuel).sleeps + 1 = (pollFrom status i fuel).checks := by
  intro fuel
  induction fuel with
  | zero => intro i h; exact absurd rfl h
  | succ f ih =>
    intro i h
    by_cases hd : isDoneStatus (status i) = true
    · rw [show pollFrom status i (f + 1) = ⟨PollOutcome.success, 1, 0⟩ from by
        simp [pollFrom, hd]]
    · have hd0 : isDoneStatus (status i) = false := Bool.eq_false_iff.mpr hd
      by_cases hf : (status i == "failed") = true
      · rw [show pollFrom status i (f + 1) = ⟨PollOutcome.failure, 1, 0⟩ from by
          simp [pollFrom, hd0, hf]]
      · have hf0 : (status i == "failed") = false := Bool.eq_false_iff.mpr hf
        have hstep : pollFrom status i (f + 1) =
            ⟨(pollFrom status (i + 1) f).outcome,
             (pollFrom status (i + 1) f).checks + 1,
             (pollFrom status (i + 1) f).sleeps + 1⟩ := by
          simp [pollFrom, hd0, hf0]
        rw [hstep] at h ⊢
        have := ih (i + 1) h
        simp only []
        omega

/-- Claim C3: a run of the poll loop issues at most 60 status checks,
with the fixed 2-unit sleep exactly once between consecutive checks
(check count minus one sleeps on a terminal exit, one sleep per check on
exhaustion); it succeeds exactly when some status among the first 60 is
`done`/`completed` with no earlier terminal status; it raises the fatal
error exactly when a `failed` status is reached first; and when all 60
checks are non-terminal it issues exactly 60 checks and still proceeds
to the results fetch instead of surfacing a timeout error. -/
theorem poll_loop_spec (status : Nat → String) :
    (pollJob status).checks ≤ 60 ∧
    ((pollJob status).outcome = PollOutcome.success ↔
      ∃ k, k < 60 ∧ isDoneStatus (status k) = true ∧
        ∀ j, j < k → isTerminalStatus (status j) = false) ∧
    ((pollJob status).outcome = PollOutcome.failure ↔
      ∃ k, k < 60 ∧ status k = "failed" ∧
        ∀ j, j < k → isTerminalStatus (status j) = false) ∧
    ((pollJob status).outcome = PollOutcome.failure →
      afterPoll status = Except.error "Search job failed") ∧
    ((∀ k, k < 60 → isTerminalStatus (status k) = false) →
      (pollJob status).checks = 60 ∧ afterPoll status = Except.ok ()) ∧
    ((pollJob status).outcome ≠ PollOutcome.exhausted →
      totalSleep status = 2 * ((pollJob status).checks - 1)) ∧
    ((pollJob status).outcome = PollOutcome.exhausted →
      totalSleep status = 2 * (pollJob status).checks) := by
  have hz : ∀ k : Nat, 0 + k = k := fun k => Nat.zero_add k
  refine ⟨pollFrom_checks_le status 60 0, ?_, ?_, ?_, ?_, ?_, ?_⟩
  · rw [show (pollJob status) = pollFrom status 0 60 from rfl,
      pollFrom_success_iff status 60 0]
    simp only [hz]
  · rw [show (pollJob status) = pollFrom status 0 60 from rfl,
      pollFrom_failure_iff status 60 0]
    simp only [hz]
  · intro h
    simp [afterPoll, h]
  · intro h
    have hx : (pollJob status).outcome = PollOutcome.exhausted := by
      rw [show (pollJob status) = pollFrom status 0 60 from rfl,
        pollFrom_exhausted_iff status 60 0]
      intro k hk
      rw [hz k]
      exact h k hk
    refine ⟨(pollFrom_exhausted_checks status 60 0 hx).1, ?_⟩
    have hnf : (pollJob status).outcome ≠ PollOutcome.failure := by
      rw [hx]; decide
    simp [afterPoll, hnf]
  · intro h
    have := pollFrom_terminal_sleeps status 60 0 h
    unfold totalSleep sleepSeconds pollJob maxAttempts
    omega
  · intro h
    have := (pollFrom_exhausted_checks status 60 0 h).2
    have hc := (pollFrom_exhausted_checks status 60 0 h).1
    unfold totalSleep sleepSeconds pollJob maxAttempts
    omega

/-- A run in which the job never reaches a terminal status: the loop
does all 60 checks and the script proceeds to fetch results anyway. -/
theorem poll_loop_witness :
    (pollJob (fun _ => "running")).checks = 60 ∧
    afterPoll (fun _ => "running") = Except.ok () :=
  (poll_loop_spec (fun _ => "running")).2.2.2.2.1
    (fun _ _ => rfl)

/- ===================== Pipeline B: ActiveDirectory/main.py ============== -/

/-- `parse_ad_user` (main.py lines 102-128).  `Except.error` models the
raised `ValueError` (a fatal configuration error).  Mirrors the source:
emptiness check, strip, UPN branch on `@`, NetBIOS branch on `\` or `/`,
plain-username branch requiring `ad_domain`. -/
def parse_ad_user (ad_user ad_domain : String) : Except String (String × String) :=
  if ad_user = "" then
    Except.error "AD user must be specified in config or arguments"
  else
    let u := pyTrim ad_user
    if pyContains u '@' then
      let p := splitFirst u '@'
      if p.1 = "" then
        Except.error ("Invalid AD user format: " ++ u ++ ". Username cannot be empty.")
      else
        Except.ok (p.1, if p.2 = "" then ad_domain else p.2)
    else if pyContains u '\\' || pyContains u '/' then
      let sep := if pyContains u '\\' then '\\' else '/'
      let p := splitFirst u sep
      if p.2 = "" then
        Except.error ("Invalid AD user format: " ++ u ++ ". Username cannot be empty.")
      else
        Except.ok (p.2, if p.1 = "" then ad_domain else p.1)
    else if ad_domain = "" then
      Except.error ("AD domain must be specified when using plain username: " ++ u)
    else
      Except.ok (u, ad_domain)

/-- Claim C1: `parse_ad_user` is deterministic over its accepted input
shapes: the UPN input `joe@x.com` gives `(joe, x.com)` whatever domain is
supplied; the NetBIOS input `DOM\joe` gives `(joe, DOM)`; the bare input
`joe` with external domain `x.com` gives `(joe, x.com)`; and the bare
input `joe` with no domain raises a fatal configuration error. -/
theorem parse_ad_user_cases :
    (∀ d, parse_ad_user "joe@x.com" d = Except.ok ("joe", "x.com")) ∧
    (∀ d, parse_ad_user "DOM\\joe" d = Except.ok ("joe", "DOM")) ∧
    parse_ad_user "joe" "x.com" = Except.ok ("joe", "x.com") ∧
    parse_ad_user "joe" "" =
      Except.error "AD domain must be specified when using plain username: joe" := by
  refine ⟨fun d => ?_, fun d => ?_, rfl, rfl⟩ <;> rfl

/-- Claim C10: a UPN or NetBIOS input with an empty domain part
(`joe@`, `\joe`) does not raise; the empty parsed domain falls back to
the externally supplied `ad_domain`, even when that is itself empty. -/
theorem parse_ad_user_empty_domain :
    (∀ d, parse_ad_user "joe@" d = Except.ok ("joe", d)) ∧
    (∀ d, parse_ad_user "\\joe" d = Except.ok ("joe", d)) ∧
    parse_ad_user "joe@" "" = Except.ok ("joe", "") ∧
    parse_ad_user "\\joe" "" = Except.ok ("joe", "") := by
  refine ⟨fun d => ?_, fun d => ?_, rfl, rfl⟩ <;> rfl

/- ------------------- configuration resolution (C2) --------------------- -/

/-- The command-line arguments (main.py lines 23-75): every flag is
optional; `none` models a flag not given on the command line, `some v`
(possibly the empty string) a value supplied by the user. -/
structure CliArgs where
  client_id : Option String
  client_secret : Option String
  organization_id : Option String
  lookup_filename : Option String
  target_group : Option String
  ad_server : Option String
  ad_user : Option String
  ad_password : Option String
  ad_domain : Option String
  ad_search_domain : Option String

/-- The keys the `[cribl]` section of the config file actually provides:
`none` models a key absent from the file, `some v` a key set to `v`
(possibly the empty string). -/
structure FileSection where
  client_id : Option String
  client_secret : Option String
  organization_id : Option String
  lookup_filename : Option String
  target_worker_group : Option String
  ad_server : Option String
  ad_user : Option String
  ad_password : Option String
  ad_domain : Option String
  ad_search_domain : Option String

/-- The merged `config["cribl"]` section after `load_config`. -/
structure ConfigSection where
  client_id : String
  client_secret : String
  organization_id : String
  lookup_filename : String
  target_worker_group : String
  ad_server : String
  ad_user : String
  ad_password : String
  ad_domain : String
  ad_search_domain : String

/-- `load_config` (main.py lines 78-99): `config.read_dict(defaults)`
seeds every key (empty string everywhere except
`target_worker_group = "default"`), then `config.read(config_path)`
overwrites exactly the keys the file provides.  `file = none` models a
missing file or a file without a `[cribl]` section. -/
def load_config (file : Option FileSection) : ConfigSection :=
  match file with
  | none =>
    ⟨"", "", "", "", "default", "", "", "", "", ""⟩
  | some f =>
    ⟨f.client_id.getD "", f.client_secret.getD "", f.organization_id.getD "",
     f.lookup_filename.getD "", f.target_worker_group.getD "default",
     f.ad_server.getD "", f.ad_user.getD "", f.ad_password.getD "",
     f.ad_domain.getD "", f.ad_search_domain.getD ""⟩

/-- Python `args.x or config["x"]` (main.py lines 372-381): the CLI value
is used only when it is truthy (present and nonempty); `None` and the
empty string both fall back to the config value. -/
def pyOr (a : Option String) (b : String) : String :=
  match a with
  | none => b
  | some v => if v = "" then b else v

/-- The ten resolved configuration values of `main` (lines 372-381). -/
structure Resolved where
  client_id : String
  client_secret : String
  organization_id : String
  lookup_filename : String
  target_worker_group : String
  ad_server : String
  ad_user : String
  ad_password : String
  ad_domain : String
  ad_search_domain : String

/-- Step 2 of `main`: override the loaded config with command-line args,
field by field, with Python `or`. -/
def resolveConfig (args : CliArgs) (file : Option FileSection) : Resolved :=
  let config := load_config file
  ⟨pyOr args.client_id config.client_id,
   pyOr args.client_secret config.client_secret,
   pyOr args.organization_id config.organization_id,
   pyOr args.lookup_filename config.lookup_filename,
   pyOr args.target_group config.target_worker_group,
   pyOr args.ad_server config.ad_server,
   pyOr args.ad_user config.ad_user,
   pyOr args.ad_password config.ad_password,
   pyOr args.ad_domain config.ad_domain,
   pyOr args.ad_search_domain config.ad_search_domain⟩

/-- The ten configuration fields, for stating one property uniformly
over every field. -/
inductive CfgField where
  | clientId | clientSecret | orgId | lookupFilename | targetGroup
  | adServer | adUser | adPassword | adDomain | adSearchDomain
deriving DecidableEq

/-- The CLI value of a field. -/
def CfgField.cli : CfgField → CliArgs → Option String
  | CfgField.clientId, a => a.client_id
  | CfgField.clientSecret, a => a.client_secret
  | CfgField.orgId, a => a.organization_id
  | CfgField.lookupFilename, a => a.lookup_filename
  | CfgField.targetGroup, a => a.target_group
  | CfgField.adServer, a => a.ad_server
  | CfgField.adUser, a => a.ad_user
  | CfgField.adPassword, a => a.ad_password
  | CfgField.adDomain, a => a.ad_domain
  | CfgField.adSearchDomain, a => a.ad_search_domain

/-- The value a config file provides for a field, when it does. -/
def CfgField.fileVal : CfgField → FileSection → Option String
  | CfgField.clientId, f => f.client_id
  | CfgField.clientSecret, f => f.client_secret
  | CfgField.orgId, f => f.organization_id
  | CfgField.lookupFilename, f => f.lookup_filename
  | CfgField.targetGroup, f => f.target_worker_group
  | CfgField.adServer, f => f.ad_server
  | CfgField.adUser, f => f.ad_user
  | CfgField.adPassword, f => f.ad_password
  | CfgField.adDomain, f => f.ad_domain
  | CfgField.adSearchDomain, f => f.ad_search_domain

/-- The resolved value of a field. -/
def CfgField.res : CfgField → Resolved → String
  | CfgField.clientId, r => r.client_id
  | CfgField.clientSecret, r => r.client_secret
  | CfgField.orgId, r => r.organization_id
  | CfgField.lookupFilename, r => r.lookup_filename
  | CfgField.targetGroup, r => r.target_worker_group
  | CfgField.adServer, r => r.ad_server
  | CfgField.adUser, r => r.ad_user
  | CfgField.adPassword, r => r.ad_password
  | CfgField.adDomain, r => r.ad_domain
  | CfgField.adSearchDomain, r => r.ad_search_domain

/-- The default of a field in `load_config`'s `defaults` dict. -/
def CfgField.dflt : CfgField → String
  | CfgField.targetGroup => "default"
  | _ => ""

/-- Resolution is, per field, Python `or` of the CLI value over the
file-or-default value. -/
theorem resolve_field_eq (fld : CfgField) (args : CliArgs) (file : Option FileSection) :
    CfgField.res fld (resolveConfig args file) =
      pyOr (CfgField.cli fld args)
        (match file with
         | none => CfgField.dflt fld
         | some f => (CfgField.fileVal fld f).getD (CfgField.dflt fld)) := by
  cases fld <;> cases file <;> rfl

/-- Arguments in which only the client id flag was given, with an empty
value (`--client-id ""`). -/
def ceArgs : CliArgs :=
  ⟨some "", none, none, none, none, none, none, none, none, none⟩

/-- A config file whose `[cribl]` section sets only the client id. -/
def ceFile : FileSection :=
  ⟨some "file-id", none, none, none, none, none, none, none, none, none⟩

/-- Claim C2, counterexample: a command-line value that is present but
empty does NOT override the config-file value — Python `or` treats the
empty string like an absent flag, so `--client-id ""` over a file value
`file-id` resolves to `file-id`, not to the supplied CLI value. -/
theorem cli_override_counterexample :
    CfgField.cli CfgField.clientId ceArgs = some "" ∧
    CfgField.fileVal CfgField.clientId ceFile = some "file-id" ∧
    CfgField.res CfgField.clientId (resolveConfig ceArgs (some ceFile)) = "file-id" ∧
    CfgField.res CfgField.clientId (resolveConfig ceArgs (some ceFile)) ≠ "" := by
  refine ⟨rfl, rfl, rfl, ?_⟩
  decide

/-- Claim C2, amended: for every field independently, a present and
NON-EMPTY command-line value overrides the config-file value; a CLI
value that is absent (or present but empty) falls back to the
config-file value when the file provides the key, otherwise to the
default — the empty string for every field except target group, whose
default is `"default"`. -/
theorem config_precedence_amended (fld : CfgField) (args : CliArgs)
    (file : Option FileSection) :
    (∀ v, CfgField.cli fld args = some v → v ≠ "" →
      CfgField.res fld (resolveConfig args file) = v) ∧
    ((CfgField.cli fld args = none ∨ CfgField.cli fld args = some "") →
      (∀ fs w, file = some fs → CfgField.fileVal fld fs = some w →
        CfgField.res fld (resolveConfig args file) = w) ∧
      ((file = none ∨ ∃ fs, file = some fs ∧ CfgField.fileVal fld fs = none) →
        CfgField.res fld (resolveConfig args file) = CfgField.dflt fld)) ∧
    CfgField.dflt CfgField.targetGroup = "default" ∧
    (fld ≠ CfgField.targetGroup → CfgField.dflt fld = "") := by
  refine ⟨?_, ?_, rfl, ?_⟩
  · intro v hv hne
    rw [resolve_field_eq, hv]
    simp [pyOr, hne]
  · intro hcli
    have hor : pyOr (CfgField.cli fld args)
        (match file with
         | none => CfgField.dflt fld
         | some f => (CfgField.fileVal fld f).getD (CfgField.dflt fld)) =
        (match file with
         | none => CfgField.dflt fld
         | some f => (CfgField.fileVal fld f).getD (CfgField.dflt fld)) := by
      rcases hcli with h | h <;> rw [h] <;> simp [pyOr]
    constructor
    · intro fs w hfs hw
      rw [resolve_field_eq, hor, hfs]
      show (CfgField.fileVal fld fs).getD (CfgField.dflt fld) = w
      rw [hw]
      rfl
    · rintro (hnone | ⟨fs, hfs, habs⟩)
      · rw [resolve_field_eq, hor, hnone]
      · rw [resolve_field_eq, hor, hfs]
        show (CfgField.fileVal fld fs).getD (CfgField.dflt fld) = CfgField.dflt fld
        rw [habs]
        rfl
  · intro h
    cases fld with
    | targetGroup => exact absurd rfl h
    | _ => rfl

/-- Arguments supplying a nonempty client id on the command line and
nothing else. -/
def wArgs : CliArgs :=
  ⟨some "cli-id", none, none, none, none, none, none, none, none, none⟩

/-- Arguments giving no flags at all. -/
def emptyArgs : CliArgs :=
  ⟨none, none, none, none, none, none, none, none, none, none⟩

theorem config_precedence_witness :
    CfgField.res CfgField.clientId (resolveConfig wArgs none) = "cli-id" ∧
    CfgField.res CfgField.targetGroup (resolveConfig emptyArgs none) = "default" := by
  constructor
  · exact (config_precedence_amended CfgField.clientId wArgs none).1
      "cli-id" rfl (by decide)
  · exact ((config_precedence_amended CfgField.targetGroup emptyArgs none).2.1
      (Or.inl rfl)).2 (Or.inl rfl)

/- ----------------- lookup existence check (C6) ------------------------- -/

/-- Python `item.get("id") == lookup_filename`: true exactly when the
item's `id` is the JSON string equal to the requested filename (a
missing `id` gives `None`, a non-string never equals a Python str). -/
def idMatches (v : Option Json) (fn : String) : Bool :=
  match v with
  | some (Json.str s) => s == fn
  | _ => false

/-- `any(item.get("id") == lookup_filename for item in data["items"])`:
short-circuiting scan of the catalog items.  A non-dict item makes
`.get` raise (an exception the function does not catch), modelled as
`none`. -/
def anyMatch (fn : String) : List Json → Option Bool
  | [] => some false
  | Json.obj ikvs :: rest =>
    if idMatches (jlookup "id" ikvs) fn then some true else anyMatch fn rest
  | _ :: _ => none

/-- `check_lookup_exists` (main.py lines 216-234).  The input is the HTTP
outcome: `Except.error` models a raised `requests` exception (caught,
logged and turned into `False`), `Except.ok data` a parsed JSON body.
`some b` is a normal boolean return; `none` models an uncaught exception
(a response shape on which the Python code would raise past the
`except`).  Membership tests on truthy non-dict bodies are outside the
modelled shapes. -/
def check_lookup_exists (lookup_filename : String)
    (resp : Except String Json) : Option Bool :=
  match resp with
  | Except.error _ => some false
  | Except.ok data =>
    if data.truthy = false then some false
    else
      match data with
      | Json.obj kvs =>
        match jlookup "items" kvs with
        | none => some false
        | some items =>
          if items.truthy = false then some false
          else
            match items with
            | Json.arr xs => anyMatch lookup_filename xs
            | _ => none
      | _ => none

/-- The create-or-update branch of `main` (lines 399-406). -/
inductive LookupAction where
  | create : LookupAction
  | update : LookupAction
deriving DecidableEq

/-- `if check_lookup_exists(...): update else create`. -/
def chooseLookupAction (found : Bool) : LookupAction :=
  if found then LookupAction.update else LookupAction.create

/-- The caller's decision as a function of the existence check. -/
def mainLookupStep (fn : String) (resp : Except String Json) :
    Option LookupAction :=
  Option.map chooseLookupAction (check_lookup_exists fn resp)

/-- A catalog none of whose items carries the requested id yields
`some false` from the scan. -/
theorem anyMatch_no_match (fn : String) (xs : List Json)
    (h : ∀ j ∈ xs, ∃ ikvs, j = Json.obj ikvs ∧
      idMatches (jlookup "id" ikvs) fn = false) :
    anyMatch fn xs = some false := by
  induction xs with
  | nil => rfl
  | cons j rest ih =>
    rcases h j (List.mem_cons_self _ _) with ⟨ikvs, rfl, hno⟩
    simp only [anyMatch, hno, Bool.false_eq_true, if_false]
    exact ih (fun x hx => h x (List.mem_cons_of_mem _ hx))

/-- Claim C6: a failed HTTP request yields the same result (`False`,
treated as "does not exist") as a successful response whose catalog has
no item with the requested id; neither is fatal, and in both cases the
caller falls through to the create path. -/
theorem lookup_exists_softfail (fn msg : String)
    (kvs : List (String × Json)) (xs : List Json)
    (hitems : jlookup "items" kvs = some (Json.arr xs))
    (hnomatch : ∀ j ∈ xs, ∃ ikvs, j = Json.obj ikvs ∧
      idMatches (jlookup "id" ikvs) fn = false) :
    check_lookup_exists fn (Except.error msg) = some false ∧
    check_lookup_exists fn (Except.ok (Json.obj kvs)) = some false ∧
    mainLookupStep fn (Except.error msg) = some LookupAction.create ∧
    mainLookupStep fn (Except.ok (Json.obj kvs)) = some LookupAction.create := by
  have hne : kvs ≠ [] := by
    intro h
    rw [h] at hitems
    exact Option.noConfusion hitems
  have hchk : check_lookup_exists fn (Except.ok (Json.obj kvs)) = some false := by
    have htr : (Json.obj kvs).truthy = true := by
      cases kvs with
      | nil => exact absurd rfl hne
      | cons a rest => rfl
    simp only [check_lookup_exists, htr, Bool.true_eq_false, if_false, hitems]
    cases xs with
    | nil => rfl
    | cons j rest =>
      have htr2 : (Json.arr (j :: rest)).truthy = true := rfl
      simp only [htr2, Bool.true_eq_false, if_false]
      exact anyMatch_no_match fn (j :: rest) hnomatch
  exact ⟨rfl, hchk, rfl, by rw [mainLookupStep, hchk]; rfl⟩

theorem lookup_exists_softfail_witness :
    check_lookup_exists "users.csv"
      (Except.ok (Json.obj
        [("items", Json.arr [Json.obj [("id", Json.str "other.csv")]])])) =
      some false ∧
    mainLookupStep "users.csv" (Except.error "connection refused") =
      some LookupAction.create := by
  have h := lookup_exists_softfail "users.csv" "connection refused"
    [("items", Json.arr [Json.obj [("id", Json.str "other.csv")]])]
    [Json.obj [("id", Json.str "other.csv")]]
    rfl
    (by
      intro j hj
      rw [List.mem_singleton] at hj
      exact ⟨[("id", Json.str "other.csv")], hj, rfl⟩)
  exact ⟨h.2.1, h.2.2.1⟩

/- ----------------- upload response validation (C7) --------------------- -/

/-- Python `lookup_filename.split('.')[0]`: the base name, the part
before the first dot. -/
def baseOf (fn : String) : String :=
  String.mk (fn.data.takeWhile (fun a => a != '.'))

/-- Python `temp.startswith(base)` on the underlying characters. -/
def strStartsWith (s start : String) : Bool :=
  s.data.take start.data.length == start.data

/-- The response handling of `upload_lookup_file` (main.py lines 256-267):
`resp_filename` is `response_data.get("filename")`; a missing or empty
value, or a value that does not start with the base of the original
filename, is a malformed response (`None`); otherwise the temporary
filename is returned. -/
def upload_check (lookup_filename : String) (resp_filename : Option String) :
    Option String :=
  match resp_filename with
  | none => none
  | some tf =>
    if tf = "" then none
    else if strStartsWith tf (baseOf lookup_filename) = false then none
    else some tf

/-- Step 5 of `main` (lines 393-396): a `None` from the upload aborts the
run (`exit(1)`), otherwise the temporary filename flows on. -/
def afterUpload (lookup_filename : String) (resp_filename : Option String) :
    Except String String :=
  match upload_check lookup_filename resp_filename with
  | none => Except.error "exit 1"
  | some tf => Except.ok tf

/-- Claim C7: the upload returns the temporary filename exactly when the
response carries a non-empty `filename` value starting with the original
file's base name (the part before the first dot); a missing field, an
empty value or an unexpected start is a malformed-response failure:
`None` is returned and the caller aborts the run. -/
theorem upload_filename_check (fn tf : String) :
    (tf ≠ "" → strStartsWith tf (baseOf fn) = true →
      upload_check fn (some tf) = some tf) ∧
    (tf = "" ∨ strStartsWith tf (baseOf fn) = false →
      upload_check fn (some tf) = none) ∧
    upload_check fn none = none ∧
    (∀ r, upload_check fn r = none → afterUpload fn r = Except.error "exit 1") := by
  refine ⟨?_, ?_, rfl, ?_⟩
  · intro hne hsw
    simp [upload_check, hne, hsw]
  · rintro (rfl | hsw)
    · rfl
    · simp [upload_check, hsw]
  · intro r h
    rw [afterUpload, h]

theorem upload_filename_check_witness :
    upload_check "users.csv" (some "users.csv.tmp42") = some "users.csv.tmp42" ∧
    upload_check "users.csv" (some "other.tmp") = none ∧
    afterUpload "users.csv" none = Except.error "exit 1" := by
  refine ⟨?_, ?_, ?_⟩
  · exact (upload_filename_check "users.csv" "users.csv.tmp42").1
      (by decide) (by decide)
  · exact (upload_filename_check "users.csv" "other.tmp").2.1
      (Or.inr (by decide))
  · exact (upload_filename_check "users.csv" "").2.2.2 none rfl

/- ----------------- CSV export of directory entries (C8) ---------------- -/

/-- One directory entry as seen by the export loop (main.py lines
174-181): each attribute's `.value` is `None` when the attribute is
missing, or its string value. -/
structure ADEntry where
  sAMAccountName : Option String
  displayName : Option String
  emailAddress : Option String
  department : Option String
  title : Option String

/-- The fixed header row written first (line 173). -/
def adHeader : List String :=
  ["sAMAccountName", "DisplayName", "EmailAddress", "Department", "Title"]

/-- One data row: `entry.X.value or ''` for each of the five attributes
(a missing value is rendered as the empty string). -/
def renderEntry (e : ADEntry) : List String :=
  [e.sAMAccountName.getD "", e.displayName.getD "", e.emailAddress.getD "",
   e.department.getD "", e.title.getD ""]

/-- The CSV writing block of `query_ad_users` (lines 171-181): write the
header row, then one row per entry, in order. -/
def writeCsv (entries : List ADEntry) : List (List String) :=
  entries.foldl (fun rows e => rows ++ [renderEntry e]) [adHeader]

theorem writeCsv_foldl (entries : List ADEntry) :
    ∀ acc : List (List String),
      entries.foldl (fun rows e => rows ++ [renderEntry e]) acc =
        acc ++ entries.map renderEntry := by
  induction entries with
  | nil => intro acc; simp
  | cons e rest ih =>
    intro acc
    simp only [List.foldl_cons, List.map_cons]
    rw [ih]
    simp

/-- Claim C8: for every entry list — including the empty one — exactly
one CSV is written whose first row is the fixed five-column header,
followed by one row per matched entry, and a missing attribute value is
rendered as the empty string. -/
theorem query_ad_users_csv (entries : List ADEntry) :
    writeCsv entries = adHeader :: entries.map renderEntry ∧
    (writeCsv entries).length = entries.length + 1 ∧
    writeCsv [] = [adHeader] ∧
    (∀ e : ADEntry, e.department = none →
      (renderEntry e).getD 3 "?" = "") ∧
    renderEntry ⟨none, none, none, none, none⟩ = ["", "", "", "", ""] := by
  refine ⟨?_, ?_, rfl, ?_, rfl⟩
  · rw [writeCsv, writeCsv_foldl entries [adHeader]]
    rfl
  · rw [writeCsv, writeCsv_foldl entries [adHeader]]
    simp [Nat.add_comm]
  · intro e h
    simp [renderEntry, h]

theorem query_ad_users_csv_witness :
    writeCsv [] = [adHeader] ∧
    (renderEntry ⟨some "jdoe", none, none, none, none⟩).getD 3 "?" = "" :=
  ⟨(query_ad_users_csv []).2.2.1,
   (query_ad_users_csv []).2.2.2.1 ⟨some "jdoe", none, none, none, none⟩ rfl⟩
